import Mathlib

/-!
Verification of the voice-ai service of the harper-ai-sales-engine
repository.  The HTTP route handlers are embedded from
`services/voice-ai/src/routes/index.ts`, the socket handler from the
service entry file, and the Session Registry (which the design document
describes but the repository does not implement) is modelled from the
design document itself.
-/

namespace VoiceAI

/-- A JSON value, as produced by `res.json(...)` in the Express handlers.
Numbers in the handlers are integers (durations, timestamps), so `num`
carries an `Int`. -/
inductive Json where
  | null : Json
  | str : String → Json
  | num : Int → Json
  | jbool : Bool → Json
  | arr : List Json → Json
  | obj : List (String × Json) → Json

/-- A response body is either a JSON document (`res.json`) or a plain
text document (`res.send` of a string, used for the TwiML reply). -/
inductive ResponseBody where
  | json : Json → ResponseBody
  | text : String → ResponseBody

/-- An HTTP response as the handlers build it: a status code, the
content type, and the body. -/
structure HttpResponse where
  status : Nat
  contentType : String
  body : ResponseBody

/-- The field value stored under key `k` of a JSON object, if any. -/
def Json.lookup (j : Json) (k : String) : Option Json :=
  match j with
  | .obj fields => fields.lookup k
  | _ => none

/-- The list of field names of a JSON object (in order). -/
def Json.keys (j : Json) : List String :=
  match j with
  | .obj fields => fields.map Prod.fst
  | _ => []

/-- The field names of a response whose body is a JSON object. -/
def HttpResponse.bodyKeys (r : HttpResponse) : List String :=
  match r.body with
  | .json j => j.keys
  | .text _ => []

/-- The field value stored under `k` in a JSON response body. -/
def HttpResponse.bodyField (r : HttpResponse) (k : String) : Option Json :=
  match r.body with
  | .json j => j.lookup k
  | .text _ => none

/-- Embeds `router.post('/conversations')` (routes/index.ts lines 16 to 34).
The handler destructures the request body (whose fields it only logs),
then answers `201` with a literal object; `Date.now()` is passed in as
`now`.  `none` for the body models a request in which `req.body` is
undefined, where the destructuring throws and the catch branch answers
`500`. -/
def conversationsCreate (body : Option Json) (now : Int) : HttpResponse :=
  match body with
  | some _ =>
    { status := 201, contentType := "application/json",
      body := .json (.obj [
        ("conversationId", .str ("conv-" ++ toString now)),
        ("status", .str "initialized"),
        ("message", .str "Voice AI conversation initiated")]) }
  | none =>
    { status := 500, contentType := "application/json",
      body := .json (.obj [("error", .str "Failed to initialize conversation")]) }

/-- Embeds `router.get('/conversations/:id')` (routes/index.ts lines 39
to 62).  The handler consults no session store: it answers `200` with a
literal object for every `id`; `Date.now()` is passed in as `now`. -/
def conversationsGet (id : String) (now : Int) : HttpResponse :=
  { status := 200, contentType := "application/json",
    body := .json (.obj [
      ("conversationId", .str id),
      ("status", .str "active"),
      ("durationSeconds", .num 120),
      ("transcript", .arr [
        .obj [("speaker", .str "ai"),
              ("text", .str "Hello, how can I help you with your insurance needs today?"),
              ("timestamp", .num (now - 120000))],
        .obj [("speaker", .str "customer"),
              ("text", .str "I need a quote for my small business."),
              ("timestamp", .num (now - 90000))],
        .obj [("speaker", .str "ai"),
              ("text", .str "I can definitely help with that. What type of business do you operate?"),
              ("timestamp", .num (now - 60000))]])]) }

/-- Embeds `router.post('/conversations/:id/end')` (routes/index.ts lines
67 to 88).  The handler consults no session store and performs no status
check: it answers `200` with a literal object for every `id`. -/
def conversationsEnd (id : String) : HttpResponse :=
  { status := 200, contentType := "application/json",
    body := .json (.obj [
      ("conversationId", .str id),
      ("status", .str "completed"),
      ("durationSeconds", .num 305),
      ("summary", .str "Customer inquired about business insurance options for a small retail shop."),
      ("nextSteps", .str "Follow up with customer to collect additional business details."),
      ("documentationNeeded", .arr [.str "Business license", .str "Previous insurance policy"])]) }

/-- The TwiML document sent by the telephony webhook handler. -/
def twimlDocument : String :=
  "<?xml version=\"1.0\" encoding=\"UTF-8\"?>\n<Response>\n  <Say>Hello, thank you for calling Harper Insurance. Our AI assistant will help you with your insurance needs.</Say>\n  <Connect>\n    <Stream url=\"wss://voice-ai.harper-insurance.com/stream\" />\n  </Connect>\n</Response>"

/-- Embeds `router.post('/webhooks/twilio')` (routes/index.ts lines 93 to
116).  When `req.body` is an object (`some`), destructuring succeeds and
the handler sends the TwiML document as `text/xml` (status `200`, the
Express default for `res.send`).  When `req.body` is undefined (`none`,
as for a POST whose content type no body parser matches), destructuring
throws and the catch branch answers `500` with a JSON error body. -/
def webhooksTwilio (body : Option Json) : HttpResponse :=
  match body with
  | some _ =>
    { status := 200, contentType := "text/xml", body := .text twimlDocument }
  | none =>
    { status := 500, contentType := "application/json",
      body := .json (.obj [("error", .str "Failed to process webhook")]) }

/-- Embeds `router.post('/livekit/token')` (routes/index.ts lines 121 to
139).  The handler destructures `identity` and `room` from the request
body, performs no validation, and answers `200` with a literal object
echoing both fields. -/
def livekitToken (identity room : Json) : HttpResponse :=
  { status := 200, contentType := "application/json",
    body := .json (.obj [
      ("token", .str "mock-livekit-token-xyz"),
      ("room", room),
      ("identity", identity),
      ("expiresIn", .num 3600)]) }

/-- Embeds the `voiceStream` handler registered in `io.on('connection')`
in the service entry file: for each incoming `voiceStream` event the
socket emits exactly one `aiResponse` event with a constant payload,
ignoring the audio data. -/
def voiceStreamHandler (_audioData : Json) : List (String × Json) :=
  [("aiResponse", .obj [("message", .str "Voice data received")])]

/-! ### Session Registry

The design document (sections 3 and 4.1) specifies a Session Registry
that the repository does not implement: no file under the service source
defines `createSession`, `appendUtterance` or `transition`.  The
definitions below are therefore modelled from the design document. -/

/-- Modelled from the spec: the `channel` enumeration of the Session
data model (section 3). -/
inductive Channel where
  | voice | chat | sms | email | web
  deriving DecidableEq, Repr

/-- Modelled from the spec: the `status` enumeration of the Session data
model (section 3), states of the state machine of section 4.1. -/
inductive SessionStatus where
  | initializing | active | completing | completed | failed
  deriving DecidableEq, Repr

/-- Modelled from the spec: the `speaker` enumeration of the Utterance
data model (section 3). -/
inductive Speaker where
  | agent | customer | system
  deriving DecidableEq, Repr

/-- Modelled from the spec: the events driving the state machine of
section 4.1 — transport attach, explicit end request, channel-level
termination signal (detach), drain confirmation, and unrecoverable
failure. -/
inductive SessionEvent where
  | attached | endRequested | disconnected | drained | failure
  deriving DecidableEq, Repr

/-- Modelled from the spec: the error taxonomy of section 7. -/
inductive RegistryError where
  | notFound | conflict | invalidState | invalidTransition | validation | timeout
  deriving DecidableEq, Repr

/-- The terminal states of the state machine: `{completed, failed}`. -/
def isTerminal : SessionStatus → Bool
  | .completed => true
  | .failed => true
  | _ => false

/-- The events that produce a terminal state. -/
def isTerminalEvent : SessionEvent → Bool
  | .drained => true
  | .failure => true
  | _ => false

/-- The terminal event whose redelivery a given terminal state matches:
`drained` for `completed`, `failure` for `failed`. -/
def terminalEventFor : SessionStatus → Option SessionEvent
  | .completed => some .drained
  | .failed => some .failure
  | _ => none

/-- Modelled from the spec: the state machine of section 4.1.
Transitions: `initializing → active` on attach; `active → completing`
on an explicit end request or a channel-level termination signal;
`completing → completed` on drain confirmation; any non-terminal state
`→ failed` on unrecoverable failure.  Idempotent redelivery of the
matching terminal event is a no-op; every other event/state combination
fails with `InvalidTransitionError`. -/
def transitionStatus : SessionStatus → SessionEvent → Except RegistryError SessionStatus
  | .initializing, .attached => .ok .active
  | .active, .endRequested => .ok .completing
  | .active, .disconnected => .ok .completing
  | .completing, .drained => .ok .completed
  | .initializing, .failure => .ok .failed
  | .active, .failure => .ok .failed
  | .completing, .failure => .ok .failed
  | .completed, .drained => .ok .completed
  | .failed, .failure => .ok .failed
  | _, _ => .error .invalidTransition

/-- Modelled from the spec: a sequence of `transition` calls applied in
order; the sequence fails as soon as one transition fails. -/
def applyEvents (st : SessionStatus) (events : List SessionEvent) :
    Except RegistryError SessionStatus :=
  match events with
  | [] => .ok st
  | e :: rest =>
    match transitionStatus st e with
    | .ok st1 => applyEvents st1 rest
    | .error err => .error err

/-- Modelled from the spec: the Session record of section 3.
`transcriptSeq` is the next sequence number the registry will assign. -/
structure Session where
  id : Nat
  channel : Channel
  participantRef : String
  status : SessionStatus
  transcriptSeq : Nat
  startedAt : Nat
  endedAt : Option Nat
  deriving DecidableEq, Repr

/-- Modelled from the spec: the Session Registry, the authoritative
store of session state, keyed by session identifier (section 2). -/
structure Registry where
  sessions : List Session
  nextId : Nat
  deriving DecidableEq, Repr

/-- The empty registry. -/
def Registry.empty : Registry := { sessions := [], nextId := 0 }

/-- The session stored under `sid`, if any. -/
def findSession (r : Registry) (sid : Nat) : Option Session :=
  r.sessions.find? (fun s => decide (s.id = sid))

/-- Whether a non-terminal session for `(channel, participantRef)`
exists in the registry. -/
def hasActiveFor (r : Registry) (ch : Channel) (p : String) : Bool :=
  r.sessions.any (fun s =>
    decide (s.channel = ch) && decide (s.participantRef = p) && !(isTerminal s.status))

/-- Modelled from the spec: `createSession(channel, participantRef,
metadata)` of section 4.1 — fails with `ConflictError` if a non-terminal
session already exists for `(channel, participantRef)`; otherwise
allocates an id, sets `initializing` and records `startedAt`.  On error
the registry is returned unchanged. -/
def createSession (r : Registry) (ch : Channel) (p : String) (now : Nat) :
    Except RegistryError Session × Registry :=
  if hasActiveFor r ch p then (.error .conflict, r)
  else
    let s : Session :=
      { id := r.nextId, channel := ch, participantRef := p,
        status := .initializing, transcriptSeq := 0, startedAt := now, endedAt := none }
    (.ok s, { sessions := s :: r.sessions, nextId := r.nextId + 1 })

/-- Replaces the session stored under `sid` by its image under `f`. -/
def updateSession (r : Registry) (sid : Nat) (f : Session → Session) : Registry :=
  { r with sessions := r.sessions.map (fun s => if s.id = sid then f s else s) }

/-- Modelled from the spec: `appendUtterance(sessionId, speaker, text)`
of section 4.1 — fails with `NotFoundError` if the session is unknown,
with `InvalidStateError` if it is not `active`; otherwise assigns and
returns the next `seq`.  On error the registry is returned unchanged. -/
def appendUtterance (r : Registry) (sid : Nat) (_speaker : Speaker) (_text : String) :
    Except RegistryError Nat × Registry :=
  match findSession r sid with
  | none => (.error .notFound, r)
  | some s =>
    if s.status = .active then
      (.ok s.transcriptSeq,
       updateSession r sid (fun t => { t with transcriptSeq := t.transcriptSeq + 1 }))
    else (.error .invalidState, r)

/-- Runs a list of `appendUtterance` calls on one session, collecting
the `seq` values of the accepted calls (rejected calls are dropped, as
section 3 specifies). -/
def runAppends (r : Registry) (sid : Nat) (calls : List (Speaker × String)) :
    List Nat × Registry :=
  match calls with
  | [] => ([], r)
  | (sp, tx) :: rest =>
    match appendUtterance r sid sp tx with
    | (.ok n, r1) =>
      let res := runAppends r1 sid rest
      (n :: res.1, res.2)
    | (.error _, r1) => runAppends r1 sid rest

/-! ### Helper lemmas -/

/-- Looking up `sid` after updating the session stored under `sid` with
an id-preserving function returns the updated session. -/
lemma find_map_update (l : List Session) (sid : Nat) (f : Session → Session)
    (hf : ∀ s, (f s).id = s.id) :
    (l.map (fun s => if s.id = sid then f s else s)).find? (fun s => decide (s.id = sid)) =
      (l.find? (fun s => decide (s.id = sid))).map f := by
  induction l with
  | nil => rfl
  | cons s rest ih =>
    by_cases h : s.id = sid
    · simp [h, hf]
    · simp [h, ih]

/-- `findSession` commutes with an id-preserving `updateSession`. -/
lemma findSession_update (r : Registry) (sid : Nat) (f : Session → Session)
    (hf : ∀ s, (f s).id = s.id) :
    findSession (updateSession r sid f) sid = (findSession r sid).map f := by
  unfold findSession updateSession
  exact find_map_update r.sessions sid f hf

/-- The accepted `seq` values of a run of `appendUtterance` calls form a
contiguous run starting at the session's current `transcriptSeq`. -/
lemma runAppends_accepted :
    ∀ (calls : List (Speaker × String)) (r : Registry) (s : Session) (sid : Nat),
      findSession r sid = some s →
      ∃ m, (runAppends r sid calls).1 = List.range' s.transcriptSeq m := by
  intro calls
  induction calls with
  | nil => exact fun r s sid _ => ⟨0, rfl⟩
  | cons c rest ih =>
    intro r s sid h
    obtain ⟨sp, tx⟩ := c
    by_cases hs : s.status = SessionStatus.active
    · have happ : appendUtterance r sid sp tx =
          (.ok s.transcriptSeq,
           updateSession r sid (fun t => { t with transcriptSeq := t.transcriptSeq + 1 })) := by
        unfold appendUtterance
        rw [h]
        simp [hs]
      have hfind : findSession
          (updateSession r sid (fun t => { t with transcriptSeq := t.transcriptSeq + 1 })) sid =
          some { s with transcriptSeq := s.transcriptSeq + 1 } := by
        rw [findSession_update r sid
          (fun t => { t with transcriptSeq := t.transcriptSeq + 1 }) (fun t => rfl), h]
        rfl
      obtain ⟨m, hm⟩ := ih _ _ sid hfind
      refine ⟨m + 1, ?_⟩
      unfold runAppends
      rw [happ]
      simpa [List.range'] using hm
    · have happ : appendUtterance r sid sp tx = (.error .invalidState, r) := by
        unfold appendUtterance
        rw [h]
        simp [hs]
      obtain ⟨m, hm⟩ := ih r s sid h
      refine ⟨m, ?_⟩
      unfold runAppends
      rw [happ]
      exact hm

/-- No single transition of the state machine produces `initializing`. -/
lemma transitionStatus_ne_init (st : SessionStatus) (e : SessionEvent) :
    transitionStatus st e ≠ .ok .initializing := by
  cases st <;> cases e <;> exact nofun

/-- No nonempty sequence of successful transitions ends in
`initializing`. -/
lemma applyEvents_ne_init :
    ∀ (events : List SessionEvent) (st st1 : SessionStatus),
      events ≠ [] → applyEvents st events = .ok st1 → st1 ≠ .initializing := by
  intro events
  induction events with
  | nil => exact fun st st1 hne _ => absurd rfl hne
  | cons e rest ih =>
    intro st st1 _ happ hinit
    subst hinit
    unfold applyEvents at happ
    cases htr : transitionStatus st e with
    | error err => rw [htr] at happ; exact nomatch happ
    | ok st2 =>
      rw [htr] at happ
      cases rest with
      | nil =>
        have : st2 = SessionStatus.initializing := by
          simpa [applyEvents] using happ
        exact transitionStatus_ne_init st e (this ▸ htr)
      | cons e2 rest2 => exact ih st2 _ (by simp) happ rfl

/-- A freshly created session, as `createSession Registry.empty voice
"+15551234567" 0` produces it. -/
def demoSession : Session :=
  { id := 0, channel := .voice, participantRef := "+15551234567",
    status := .initializing, transcriptSeq := 0, startedAt := 0, endedAt := none }

/-- The registry holding exactly `demoSession`. -/
def demoRegistry : Registry := { sessions := [demoSession], nextId := 1 }

/-- `demoSession` after its transport attached (status `active`). -/
def demoActiveSession : Session := { demoSession with status := .active }

/-- The registry holding exactly `demoActiveSession`. -/
def demoActiveRegistry : Registry := { sessions := [demoActiveSession], nextId := 1 }

/-! ### Claims -/

/-- C1, counterexample.  The claim says `GET /conversations/:id` answers
`404` when the id names no known session.  The handler keeps no session
store, so the id below names no session, yet the handler answers `200`,
not `404`. -/
theorem C1_counterexample_unknown_id_200 :
    (conversationsGet "no-such-session" 0).status = 200 ∧
    (conversationsGet "no-such-session" 0).status ≠ 404 :=
  ⟨rfl, by decide⟩

/-- C1, amended.  For every request `GET /conversations/:id` — whether
or not any session with that id exists, since the handler consults no
session store — the response has status `200` with body fields
`{conversationId, status, durationSeconds, transcript}`, the
`conversationId` echoing the requested id; `404` is never returned. -/
theorem C1_amended_get_conversation_always_200 (id : String) (now : Int) :
    (conversationsGet id now).status = 200 ∧
    (conversationsGet id now).bodyKeys =
      ["conversationId", "status", "durationSeconds", "transcript"] ∧
    (conversationsGet id now).bodyField "conversationId" = some (.str id) :=
  ⟨rfl, rfl, rfl⟩

/-- C2, counterexample.  The claim says every telephony webhook request,
including one whose processing fails, gets a call-control markup
(text/xml) response and never an error body.  A request whose body the
parsers left undefined makes the destructuring throw, and the catch
branch answers `500` with a JSON error body, not markup. -/
theorem C2_counterexample_failure_error_body :
    (webhooksTwilio none).status = 500 ∧
    (webhooksTwilio none).contentType = "application/json" ∧
    (webhooksTwilio none).contentType ≠ "text/xml" ∧
    (webhooksTwilio none).bodyField "error" = some (.str "Failed to process webhook") :=
  ⟨rfl, rfl, by decide, rfl⟩

/-- C2, amended.  When the request body is present, the handler answers
with the call-control markup document as `text/xml`; but when processing
fails (body absent, destructuring throws), the catch branch answers
`500` with a JSON error body — there is no markup fallback on the
failure path. -/
theorem C2_amended_webhook_responses :
    (∀ b : Json, webhooksTwilio (some b) =
      { status := 200, contentType := "text/xml", body := .text twimlDocument }) ∧
    (webhooksTwilio none).status = 500 ∧
    (webhooksTwilio none).contentType = "application/json" :=
  ⟨fun _ => rfl, rfl, rfl⟩

/-- C3, counterexample.  The claim says an empty `identity` or `room`
makes token issuance fail with a `400`/`ValidationError` and no token.
The handler performs no validation: with an empty identity it answers
`200` and returns the mock token. -/
theorem C3_counterexample_empty_identity_200 :
    (livekitToken (.str "") (.str "sales-room")).status = 200 ∧
    (livekitToken (.str "") (.str "sales-room")).status ≠ 400 ∧
    (livekitToken (.str "") (.str "sales-room")).bodyField "token" =
      some (.str "mock-livekit-token-xyz") :=
  ⟨rfl, by decide, rfl⟩

/-- C3, amended.  For every token request in which `identity` or `room`
is empty, the handler still answers `200` with the mock token, echoing
the empty fields; no validation is performed and no `400` is returned. -/
theorem C3_amended_no_empty_check (identity room : Json)
    (_h : identity = .str "" ∨ room = .str "") :
    (livekitToken identity room).status = 200 ∧
    (livekitToken identity room).bodyField "token" = some (.str "mock-livekit-token-xyz") ∧
    (livekitToken identity room).bodyField "identity" = some identity ∧
    (livekitToken identity room).bodyField "room" = some room :=
  ⟨rfl, rfl, rfl, rfl⟩

/-- C3, witness for the amended theorem at `identity = ""`. -/
theorem C3_amended_witness :
    (Json.str "" = Json.str "" ∨ Json.str "sales-room" = Json.str "") ∧
    ((livekitToken (.str "") (.str "sales-room")).status = 200 ∧
     (livekitToken (.str "") (.str "sales-room")).bodyField "token" =
       some (.str "mock-livekit-token-xyz") ∧
     (livekitToken (.str "") (.str "sales-room")).bodyField "identity" = some (.str "") ∧
     (livekitToken (.str "") (.str "sales-room")).bodyField "room" =
       some (.str "sales-room")) :=
  ⟨Or.inl rfl, C3_amended_no_empty_check (.str "") (.str "sales-room") (Or.inl rfl)⟩

/-- C4 (spec-modelled Session Registry).  If `createSession` succeeds
for `(channel, participantRef)` — leaving the new session in the
non-terminal `initializing` state — then a second `createSession` with
the same pair fails with `ConflictError` and leaves the registry
unchanged: no new session is created. -/
theorem C4_createSession_conflict (r r1 : Registry) (ch : Channel) (p : String)
    (t1 t2 : Nat) (s : Session)
    (h : createSession r ch p t1 = (.ok s, r1)) :
    (createSession r1 ch p t2).1 = .error .conflict ∧
    (createSession r1 ch p t2).2 = r1 := by
  unfold createSession at h
  by_cases hc : hasActiveFor r ch p
  · rw [if_pos hc] at h
    exact nomatch congrArg Prod.fst h
  · rw [if_neg hc] at h
    have hr1 : r1 =
        { sessions :=
            { id := r.nextId, channel := ch, participantRef := p,
              status := .initializing, transcriptSeq := 0, startedAt := t1,
              endedAt := none } :: r.sessions,
          nextId := r.nextId + 1 } :=
      (congrArg Prod.snd h).symm
    have hactive : hasActiveFor r1 ch p = true := by
      rw [hr1]
      simp [hasActiveFor, isTerminal]
    unfold createSession
    rw [if_pos hactive]
    exact ⟨rfl, rfl⟩

/-- C4, witness: creating a voice session for `+15551234567` in the
empty registry succeeds; creating it again conflicts. -/
theorem C4_witness :
    (createSession demoRegistry .voice "+15551234567" 1).1 = .error .conflict ∧
    (createSession demoRegistry .voice "+15551234567" 1).2 = demoRegistry :=
  C4_createSession_conflict Registry.empty demoRegistry .voice "+15551234567" 0 1
    demoSession rfl

/-- C5 (spec-modelled Session Registry).  For a session whose
`transcriptSeq` is `0` (as at creation), the `seq` values returned by
the accepted `appendUtterance` calls of any run are exactly
`0, 1, 2, ...` — strictly increasing, gap-free, starting at `0`. -/
theorem C5_seq_contiguous (r : Registry) (sid : Nat) (s : Session)
    (calls : List (Speaker × String))
    (h : findSession r sid = some s) (h0 : s.transcriptSeq = 0) :
    (runAppends r sid calls).1 = List.range (runAppends r sid calls).1.length := by
  obtain ⟨m, hm⟩ := runAppends_accepted calls r s sid h
  rw [h0] at hm
  rw [hm, List.range_eq_range', List.length_range']

/-- C5, witness: two utterances appended to a fresh active session get
seq values `[0, 1] = range 2`. -/
theorem C5_witness :
    (runAppends demoActiveRegistry 0
        [(Speaker.customer, "hello"), (Speaker.agent, "hi")]).1 =
      List.range
        (runAppends demoActiveRegistry 0
          [(Speaker.customer, "hello"), (Speaker.agent, "hi")]).1.length :=
  C5_seq_contiguous demoActiveRegistry 0 demoActiveSession
    [(Speaker.customer, "hello"), (Speaker.agent, "hi")] rfl rfl

/-- C6 (spec-modelled Session Registry).  A terminal state is immutable:
redelivery of its matching terminal event is a no-op returning the same
state, any other terminal event fails with `InvalidTransitionError`, and
neither a single transition nor any nonempty sequence of transitions
ever produces `initializing` again. -/
theorem C6_terminal_immutable :
    (∀ st : SessionStatus, isTerminal st = true →
      ∀ e : SessionEvent,
        (terminalEventFor st = some e → transitionStatus st e = .ok st) ∧
        (isTerminalEvent e = true → terminalEventFor st ≠ some e →
          transitionStatus st e = .error .invalidTransition)) ∧
    (∀ (st : SessionStatus) (e : SessionEvent) (st1 : SessionStatus),
      transitionStatus st e = .ok st1 → st1 ≠ .initializing) ∧
    (∀ (st st1 : SessionStatus) (events : List SessionEvent),
      events ≠ [] → applyEvents st events = .ok st1 → st1 ≠ .initializing) := by
  refine ⟨?_, ?_, ?_⟩
  · intro st hst e
    cases st with
    | initializing => exact nomatch hst
    | active => exact nomatch hst
    | completing => exact nomatch hst
    | completed =>
      cases e with
      | attached => exact ⟨fun hfor => (nomatch hfor), fun hterm => (nomatch hterm)⟩
      | endRequested => exact ⟨fun hfor => (nomatch hfor), fun hterm => (nomatch hterm)⟩
      | disconnected => exact ⟨fun hfor => (nomatch hfor), fun hterm => (nomatch hterm)⟩
      | drained => exact ⟨fun _ => rfl, fun _ hne => absurd rfl hne⟩
      | failure => exact ⟨fun hfor => (nomatch hfor), fun _ _ => rfl⟩
    | failed =>
      cases e with
      | attached => exact ⟨fun hfor => (nomatch hfor), fun hterm => (nomatch hterm)⟩
      | endRequested => exact ⟨fun hfor => (nomatch hfor), fun hterm => (nomatch hterm)⟩
      | disconnected => exact ⟨fun hfor => (nomatch hfor), fun hterm => (nomatch hterm)⟩
      | drained => exact ⟨fun hfor => (nomatch hfor), fun _ _ => rfl⟩
      | failure => exact ⟨fun _ => rfl, fun _ hne => absurd rfl hne⟩
  · intro st e st1 h hinit
    subst hinit
    exact transitionStatus_ne_init st e h
  · exact fun st st1 events hne happ => applyEvents_ne_init events st st1 hne happ

/-- C6, witness: in `completed`, redelivering `drained` is a no-op and
delivering `failure` fails with `InvalidTransitionError`. -/
theorem C6_witness :
    isTerminal SessionStatus.completed = true ∧
    transitionStatus .completed .drained = .ok .completed ∧
    transitionStatus .completed .failure = .error .invalidTransition ∧
    applyEvents .initializing [.attached, .endRequested] ≠ .ok .initializing :=
  ⟨rfl,
   (C6_terminal_immutable.1 .completed rfl .drained).1 rfl,
   (C6_terminal_immutable.1 .completed rfl .failure).2 rfl (by decide),
   fun happ =>
     C6_terminal_immutable.2.2 .initializing .initializing
       [.attached, .endRequested] (by decide) happ rfl⟩

/-- C7.  For every request `POST /livekit/token` with body
`{identity, room}`, the response has status `200` and its body has
fields `{token, room, identity, expiresIn}`, where `room` and `identity`
echo the request and `expiresIn` is `3600` seconds — the default TTL the
handler hard-codes. -/
theorem C7_livekit_token_contract (identity room : Json) :
    (livekitToken identity room).status = 200 ∧
    (livekitToken identity room).bodyKeys = ["token", "room", "identity", "expiresIn"] ∧
    (livekitToken identity room).bodyField "room" = some room ∧
    (livekitToken identity room).bodyField "identity" = some identity ∧
    (livekitToken identity room).bodyField "expiresIn" = some (.num 3600) :=
  ⟨rfl, rfl, rfl, rfl, rfl⟩

/-- C8.  For every request `POST /conversations` with a body present,
the response has status `201` and its body has exactly the fields
`{conversationId, status, message}`. -/
theorem C8_conversations_create_201 (b : Json) (now : Int) :
    (conversationsCreate (some b) now).status = 201 ∧
    (conversationsCreate (some b) now).bodyKeys = ["conversationId", "status", "message"] :=
  ⟨rfl, rfl⟩

/-- C9.  For every id — including ids for which no conversation was ever
created; the handler is a function of the id alone and consults no
session store — `POST /conversations/:id/end` answers `200` with status
`"completed"` and the fixed duration `305`, never `404` or `400`. -/
theorem C9_end_unconditional_200 (id : String) :
    (conversationsEnd id).status = 200 ∧
    (conversationsEnd id).bodyField "status" = some (.str "completed") ∧
    (conversationsEnd id).bodyField "durationSeconds" = some (.num 305) ∧
    (conversationsEnd id).status ≠ 404 ∧
    (conversationsEnd id).status ≠ 400 := by
  refine ⟨rfl, rfl, rfl, ?_, ?_⟩ <;> · intro hc; simp [conversationsEnd] at hc

/-- C10.  For every `voiceStream` event, the socket handler emits
exactly one `aiResponse` event with the constant payload
`{message: "Voice data received"}`; the response is independent of the
audio payload, so any two frames produce identical responses. -/
theorem C10_voice_stream_constant_response (a : Json) :
    voiceStreamHandler a =
      [("aiResponse", .obj [("message", .str "Voice data received")])] ∧
    (voiceStreamHandler a).length = 1 ∧
    ∀ b : Json, voiceStreamHandler a = voiceStreamHandler b :=
  ⟨rfl, rfl, fun _ => rfl⟩

end VoiceAI
